import Mathlib

/-!
Verification development for the ScanPass verification pipeline
(backend: `liveness.py`, `embedding_engine.py`, `challenges.py`, `main.py`).

The numeric computations of the source run on IEEE floats; here they are
modelled over the real numbers `ℝ`, with `numpy` reductions (`np.mean`,
`np.linalg.norm`, per pixel magnitudes) written out explicitly.  Frames and
the two external vision primitives (Farneback optical flow, the MobileNetV2
feature extractor) are opaque at the boundary, exactly as the spec draws it:
frames are an opaque type and the two primitives are explicit function
parameters (`flowFn`, `embedFn`).  Python dictionaries returned by the
pipeline stages become structures; human readable message strings whose only
data content is numbers already carried elsewhere become structured values
(inductive reasons / log entries), since decimal formatting is presentation
only.  Python `round(x, d)` (ties to even) is modelled exactly by `pyRound`.
-/

/-- Frames are opaque: the pipeline never inspects pixel data directly, it
only hands frames to the external primitives. -/
def Frame : Type := ℕ

instance : DecidableEq Frame := by
  unfold Frame
  infer_instance

instance : OfNat Frame n := ⟨(n : ℕ)⟩

/-- A dense motion field: rows of per pixel `(dx, dy)` displacement, the
shape-`(H, W, 2)` array returned by `cv2.calcOpticalFlowFarneback`. -/
def MotionField : Type := List (List (ℝ × ℝ))

/-- Round half to even at integer precision, the behaviour of Python's
built-in `round` on an exact value. -/
noncomputable def roundHalfEven (y : ℝ) : ℤ :=
  if Int.fract y = 1 / 2 then (if 2 ∣ ⌊y⌋ then ⌊y⌋ else ⌊y⌋ + 1) else round y

/-- Python's `round(x, d)`: round half to even at `d` decimal places. -/
noncomputable def pyRound (d : ℕ) (x : ℝ) : ℝ :=
  (roundHalfEven (x * 10 ^ d) : ℝ) / 10 ^ d

/-- Height of a flow field (`flow.shape[0]`). -/
def flowH (flow : MotionField) : ℕ := (show List (List (ℝ × ℝ)) from flow).length

/-- Width of a flow field (`flow.shape[1]`; numpy arrays are rectangular, so
the first row's length is the width). -/
def flowW (flow : MotionField) : ℕ := ((show List (List (ℝ × ℝ)) from flow).headD []).length

/-- Sum of a per pixel quantity `f y x (dx, dy)` over one row, starting at
column `x`. -/
def rowPixelSum (f : ℕ → ℕ → ℝ × ℝ → ℝ) (y : ℕ) : ℕ → List (ℝ × ℝ) → ℝ
  | _, [] => 0
  | x, v :: vs => f y x v + rowPixelSum f y (x + 1) vs

/-- Sum of a per pixel quantity over the rows of a grid, starting at row
`y`. -/
def gridPixelSum (f : ℕ → ℕ → ℝ × ℝ → ℝ) : ℕ → List (List (ℝ × ℝ)) → ℝ
  | _, [] => 0
  | y, row :: rows => rowPixelSum f y 0 row + gridPixelSum f (y + 1) rows

/-- Sum of a per pixel quantity `f y x (dx, dy)` over the whole field. -/
def pixelSum (flow : MotionField) (f : ℕ → ℕ → ℝ × ℝ → ℝ) : ℝ :=
  gridPixelSum f 0 (show List (List (ℝ × ℝ)) from flow)

/-- The `np.mean` of a per pixel quantity over an `H × W` field. -/
noncomputable def pixelMean (flow : MotionField) (f : ℕ → ℕ → ℝ × ℝ → ℝ) : ℝ :=
  pixelSum flow f / ((flowH flow * flowW flow : ℕ) : ℝ)

/-- The per pixel unit radial vector of `detect_dominant_direction`:
`vec = (x - cx, y - cy)` with `cy, cx = h // 2, w // 2`, divided by
`sqrt(vec_x² + vec_y²) + 1e-8`. -/
noncomputable def unitRadial (h w y x : ℕ) : ℝ × ℝ :=
  let cy : ℤ := (h : ℤ) / 2
  let cx : ℤ := (w : ℤ) / 2
  let vx : ℝ := (((x : ℤ) - cx : ℤ) : ℝ)
  let vy : ℝ := (((y : ℤ) - cy : ℤ) : ℝ)
  let nrm : ℝ := Real.sqrt (vx ^ 2 + vy ^ 2) + 1e-8
  (vx / nrm, vy / nrm)

/-- The four accumulated direction statistics of
`detect_dominant_direction`. -/
structure DirInfo where
  horizontal : ℝ
  vertical : ℝ
  expansion : ℝ
  rotation : ℝ

/-- Model of `detect_dominant_direction` (`liveness.py`): accumulate, over all flow
fields, the mean horizontal and vertical flow, the mean radial projection
(expansion) and the mean tangential projection (rotation), then divide each
accumulator by `n = len(flows) if len(flows) > 0 else 1`. -/
noncomputable def detectDominantDirection (flows : List MotionField) : DirInfo :=
  let sums : DirInfo := flows.foldl (fun (acc : DirInfo) flow =>
    let h := flowH flow
    let w := flowW flow
    { horizontal := acc.horizontal + pixelMean flow (fun _ _ v => v.1)
      vertical := acc.vertical + pixelMean flow (fun _ _ v => v.2)
      expansion := acc.expansion + pixelMean flow (fun y x v =>
        v.1 * (unitRadial h w y x).1 + v.2 * (unitRadial h w y x).2)
      rotation := acc.rotation + pixelMean flow (fun y x v =>
        v.1 * (-(unitRadial h w y x).2) + v.2 * (unitRadial h w y x).1) })
    ⟨0, 0, 0, 0⟩
  let n : ℝ := if flows.length > 0 then (flows.length : ℝ) else 1
  ⟨sums.horizontal / n, sums.vertical / n, sums.expansion / n, sums.rotation / n⟩

/-- Per field mean displacement magnitude (`cv2.cartToPolar` magnitude is
`sqrt(dx² + dy²)`, then `np.mean`). -/
noncomputable def flowMagnitudeMean (flow : MotionField) : ℝ :=
  pixelMean flow (fun _ _ v => Real.sqrt (v.1 ^ 2 + v.2 ^ 2))

/-- The `avg_magnitude` statistic of `compute_motion_magnitude`: mean of the
per field mean magnitudes, `0.0` for an empty flow list.  (The source also
computes `max_magnitude` and `std_magnitude`; they are dead downstream and
not modelled.) -/
noncomputable def avgMagnitude (flows : List MotionField) : ℝ :=
  if flows.length = 0 then 0 else (flows.map flowMagnitudeMean).sum / (flows.length : ℝ)

/-- Model of `compute_optical_flow`: one field per adjacent frame pair, via the
external primitive `flowFn`. -/
def computeOpticalFlow (flowFn : Frame → Frame → MotionField) (frames : List Frame) : List MotionField :=
  (frames.zip frames.tail).map (fun p => flowFn p.1 p.2)

/-- Structured rendering of the `reason` strings of `check_liveness`; the
numeric data the source interpolates into the strings is carried as fields. -/
inductive LiveReason where
  | insufficientFrames : LiveReason
  | staticReplay (score threshold : ℝ) : LiveReason
  | liveMotion (score threshold : ℝ) : LiveReason

/-- The dict returned by `check_liveness`. -/
structure LivenessResult where
  is_live : Bool
  motion_score : ℝ
  reason : LiveReason

open Classical in
/-- Model of `check_liveness` (`liveness.py`): fewer than 2 frames is an immediate
negative verdict; otherwise compare the average flow magnitude with
`min_motion` (default `1.5`); the returned `motion_score` is
`round(avg, 3)`. -/
noncomputable def checkLiveness (flowFn : Frame → Frame → MotionField)
    (frames : List Frame) (min_motion : ℝ) : LivenessResult :=
  if frames.length < 2 then
    { is_live := false, motion_score := 0, reason := .insufficientFrames }
  else
    let flows := computeOpticalFlow flowFn frames
    let avg := avgMagnitude flows
    if avg < min_motion then
      { is_live := false, motion_score := pyRound 3 avg
        reason := .staticReplay avg min_motion }
    else
      { is_live := true, motion_score := pyRound 3 avg
        reason := .liveMotion avg min_motion }

/-- Structured rendering of the `reason` strings of
`check_challenge_direction`. -/
inductive DirReason where
  | insufficientFrames : DirReason
  | leniency (detected : String) (confidence : ℝ) (expected : String) : DirReason
  | matched (detected : String) (confidence : ℝ) : DirReason
  | mismatch (detected : String) (confidence : ℝ) (expected : String) : DirReason

/-- The dict returned by `check_challenge_direction` (`flow_details` is only
present on the main branch, hence the `Option`). -/
structure DirectionResult where
  direction_match : Bool
  detected_direction : String
  confidence : ℝ
  reason : DirReason
  flow_details : Option DirInfo

open Classical in
/-- Python's `max(scores, key=scores.get)` over the `scores` dict of
`check_challenge_direction`, whose insertion order is
`rotation, zoom_in, zoom_out, left, right`: iterate in that order, replacing
the current best only on a strictly greater value (so ties keep the earlier
key). -/
noncomputable def argmaxScores (sRot sZi sZo sL sR : ℝ) : String × ℝ :=
  let b0 : String × ℝ := ("rotation", sRot)
  let b1 : String × ℝ := if sZi > b0.2 then ("zoom_in", sZi) else b0
  let b2 : String × ℝ := if sZo > b1.2 then ("zoom_out", sZo) else b1
  let b3 : String × ℝ := if sL > b2.2 then ("left", sL) else b2
  let b4 : String × ℝ := if sR > b3.2 then ("right", sR) else b3
  b4

/-- Round the four `flow_details` entries to 3 decimals, as the source's
dict comprehension does. -/
noncomputable def roundDirInfo (info : DirInfo) : DirInfo :=
  ⟨pyRound 3 info.horizontal, pyRound 3 info.vertical,
    pyRound 3 info.expansion, pyRound 3 info.rotation⟩

open Classical in
/-- Model of `check_challenge_direction` (`liveness.py`): fewer than 2 frames is an
immediate negative verdict; otherwise derive the five non negative candidate
scores from `detect_dominant_direction`, pick the argmax (first wins on
ties), then apply the match rule: strict match needs
`detected == expected and confidence > threshold`; a failed strict match is
still accepted under MVP leniency whenever `confidence > threshold`. -/
noncomputable def checkChallengeDirection (flowFn : Frame → Frame → MotionField)
    (frames : List Frame) (expected_direction : String)
    (direction_threshold : ℝ) : DirectionResult :=
  if frames.length < 2 then
    { direction_match := false, detected_direction := "unknown", confidence := 0
      reason := .insufficientFrames, flow_details := none }
  else
    let flows := computeOpticalFlow flowFn frames
    let info := detectDominantDirection flows
    let sRot := |info.rotation|
    let sZi := max info.expansion 0
    let sZo := max (-info.expansion) 0
    let sL := max (-info.horizontal) 0
    let sR := max info.horizontal 0
    let dm := argmaxScores sRot sZi sZo sL sR
    let detected := dm.1
    let confidence := dm.2
    let strict : Prop := detected = expected_direction ∧ confidence > direction_threshold
    if ¬strict ∧ confidence > direction_threshold then
      { direction_match := true, detected_direction := detected
        confidence := pyRound 3 confidence
        reason := .leniency detected confidence expected_direction
        flow_details := some (roundDirInfo info) }
    else if strict then
      { direction_match := true, detected_direction := detected
        confidence := pyRound 3 confidence
        reason := .matched detected confidence
        flow_details := some (roundDirInfo info) }
    else
      { direction_match := false, detected_direction := detected
        confidence := pyRound 3 confidence
        reason := .mismatch detected confidence expected_direction
        flow_details := some (roundDirInfo info) }

/-- L2 norm of a vector (`np.linalg.norm`). -/
noncomputable def l2norm (v : List ℝ) : ℝ := Real.sqrt ((v.map (fun x => x ^ 2)).sum)

open Classical in
/-- Model of `sklearn.preprocessing.normalize` on a single row, as used inside
`sklearn cosine_similarity`: divide by the L2 norm, except that a zero norm
is replaced by 1 (leaving the vector unchanged). -/
noncomputable def sklNormalize (v : List ℝ) : List ℝ :=
  if l2norm v = 0 then v else v.map (fun x => x / l2norm v)

/-- Dot product of two vectors. -/
def dotList (a b : List ℝ) : ℝ := ((a.zip b).map (fun p => p.1 * p.2)).sum

/-- The faults that abort a verification call (surfaced by the source as
exceptions that the endpoint turns into an HTTP 500). -/
inductive Fault where
  | dimensionMismatch (storedLen liveLen : ℕ) : Fault

instance : DecidableEq Fault := fun a b => by
  cases a with
  | dimensionMismatch x y =>
    cases b with
    | dimensionMismatch z w =>
      cases Nat.decEq x z with
      | isTrue h1 =>
        cases Nat.decEq y w with
        | isTrue h2 => exact isTrue (by rw [h1, h2])
        | isFalse h2 => exact isFalse (by intro h; cases h; exact h2 rfl)
      | isFalse h1 => exact isFalse (by intro h; cases h; exact h1 rfl)

open Classical in
/-- Model of `compute_similarity` (`embedding_engine.py`): reshape both vectors into
single rows and call sklearn `cosine_similarity`, which raises on a length
mismatch and otherwise returns the dot product of the two L2 normalized
rows. -/
noncomputable def computeSimilarity (emb1 emb2 : List ℝ) : Except Fault ℝ :=
  if emb1.length ≠ emb2.length then
    .error (.dimensionMismatch emb1.length emb2.length)
  else
    .ok (dotList (sklNormalize emb1) (sklNormalize emb2))

/-- Componentwise mean of a nonempty family of vectors
(`np.mean(embeddings, axis=0)`); numpy requires uniform lengths, so the
ragged case (where `zipWith` truncates) is never exercised by the source. -/
noncomputable def meanVec (l : List (List ℝ)) : List ℝ :=
  match l with
  | [] => []
  | v :: vs => (vs.foldl (fun acc u => List.zipWith (· + ·) acc u) v).map
      (fun x => x / (l.length : ℝ))

/-- Model of `get_average_embedding` (`embedding_engine.py`): embed every frame with
the external extractor, average componentwise, then divide by
`np.linalg.norm(avg) + 1e-8`. -/
noncomputable def getAverageEmbedding (embedFn : Frame → List ℝ)
    (frames : List Frame) : List ℝ :=
  let avg := meanVec (frames.map embedFn)
  avg.map (fun x => x / (l2norm avg + 1e-8))

/-- The distinguished error of `extract_frames` (`ValueError` in the
source: no frames could be extracted / could not open the video). -/
inductive ExtractError where
  | noFrames : ExtractError
deriving DecidableEq

/-- The index set of `np.linspace(0, total - 1, n, dtype=int)`: casting to
int truncates, so entry `i` is `⌊i·(total−1)/(n−1)⌋` (and `0` when
`n ≤ 1`, matching `linspace` with a single sample point). -/
def linspaceIdx (total n : ℕ) : List ℕ :=
  (List.range n).map (fun i => if n ≤ 1 then 0 else i * (total - 1) / (n - 1))

/-- Model of `extract_frames` (`embedding_engine.py`), on a video whose container
metadata reports the true recoverable frame count (the source's fallback
branch for broken metadata is not modelled): fail when no frames are
recoverable, otherwise seek and read the frame at every `linspace` index —
a read succeeds exactly when the index is inside the video — and fail if
nothing was read. -/
def extractFrames (video : List Frame) (n_frames : ℕ) : Except ExtractError (List Frame) :=
  if video.length = 0 then .error .noFrames
  else
    let idxs := linspaceIdx video.length n_frames
    let frames := idxs.filterMap (fun i => video[i]?)
    if frames.length = 0 then .error .noFrames else .ok frames

/-- Rounding half to even (Python's `round`) of the exact fraction `p / q`
(`q > 0`), computed on numerator and denominator. -/
def natRoundHalfEven (p q : ℕ) : ℕ :=
  if 2 * (p % q) < q then p / q
  else if q < 2 * (p % q) then p / q + 1
  else if p / q % 2 = 0 then p / q else p / q + 1

/-- Modelled from the claim's words (for comparison with `extractFrames`):
fail when zero frames are recoverable; return all available frames when
`total < n`; otherwise return exactly the frames at indices
`round(i·(total−1)/(n−1))`. -/
def specExtractFrames (video : List Frame) (n_frames : ℕ) : Except ExtractError (List Frame) :=
  if video.length = 0 then .error .noFrames
  else if video.length < n_frames then .ok video
  else .ok ((List.range n_frames).map (fun i =>
    video.getD (natRoundHalfEven (i * (video.length - 1)) (n_frames - 1)) 0))

/-- One entry of the `auth_log` evidence list built by the `authenticate`
endpoint; the booleans record the per stage check mark. -/
inductive LogEntry where
  | framesExtracted (count : ℕ) : LogEntry
  | livenessLine (ok : Bool) (reason : LiveReason) : LogEntry
  | directionLine (ok : Bool) (reason : DirReason) : LogEntry
  | similarityLine (ok : Bool) (score threshold : ℝ) : LogEntry
  | resultAuthenticated : LogEntry
  | resultRejected (reasons : List String) : LogEntry

/-- The `liveness` sub dict of the response `details`. -/
structure LivenessDetail where
  passed : Bool
  motion_score : ℝ
  reason : LiveReason

/-- The `direction` sub dict of the response `details`. -/
structure DirectionDetail where
  passed : Bool
  detected : String
  expected : String
  confidence : ℝ
  reason : DirReason

/-- The `similarity` sub dict of the response `details`. -/
structure SimilarityDetail where
  passed : Bool
  score : ℝ
  threshold : ℝ

/-- The `details` dict of the response. -/
structure AuthDetails where
  liveness : LivenessDetail
  direction : DirectionDetail
  similarity : SimilarityDetail
  auth_log : List LogEntry

/-- The JSON body returned by the `authenticate` endpoint. -/
structure AuthResponse where
  success : Bool
  authenticated : Bool
  session_id : Option String
  message : String
  details : AuthDetails

/-- The `SIMILARITY_THRESHOLD` constant of `main.py`. -/
noncomputable def SIMILARITY_THRESHOLD : ℝ := 0.60

/-- The `LIVENESS_THRESHOLD` constant of `main.py`. -/
noncomputable def LIVENESS_THRESHOLD : ℝ := 1.5

open Classical in
/-- The response built by the `authenticate` endpoint (`main.py`, steps 2–5)
once the similarity computation has succeeded with value `s`: run liveness,
direction and the similarity threshold test, fuse them with a conjunction,
mint a session id only on success, and assemble the ordered evidence log
and the per stage details.  The session id's random uuid suffix is modelled
by the explicit `entropy` input (`f"SP-{...}"` becomes `"SP-" ++ entropy`). -/
noncomputable def authOkResponse (flowFn : Frame → Frame → MotionField)
    (frames : List Frame) (expected_direction entropy : String) (similarity : ℝ) :
    AuthResponse :=
  let liveness_result := checkLiveness flowFn frames LIVENESS_THRESHOLD
  let direction_result := checkChallengeDirection flowFn frames expected_direction 0.3
  let similarity_pass : Bool := decide (similarity ≥ SIMILARITY_THRESHOLD)
  let authenticated : Bool :=
    liveness_result.is_live && direction_result.direction_match && similarity_pass
  let session_id : Option String :=
    if authenticated then some ("SP-" ++ entropy) else none
  let reasons : List String :=
    (if liveness_result.is_live then [] else ["failed liveness (static/replay)"]) ++
    (if direction_result.direction_match then [] else ["failed challenge direction"]) ++
    (if similarity_pass then [] else ["object mismatch"])
  let auth_log : List LogEntry :=
    [.framesExtracted frames.length,
      .livenessLine liveness_result.is_live liveness_result.reason,
      .directionLine direction_result.direction_match direction_result.reason,
      .similarityLine similarity_pass similarity SIMILARITY_THRESHOLD] ++
    (if authenticated then [.resultAuthenticated] else [.resultRejected reasons])
  { success := true
    authenticated := authenticated
    session_id := session_id
    message := if authenticated then "AUTHENTICATED" else "REJECTED"
    details :=
      { liveness :=
          { passed := liveness_result.is_live
            motion_score := liveness_result.motion_score
            reason := liveness_result.reason }
        direction :=
          { passed := direction_result.direction_match
            detected := direction_result.detected_direction
            expected := expected_direction
            confidence := direction_result.confidence
            reason := direction_result.reason }
        similarity :=
          { passed := similarity_pass
            score := pyRound 4 similarity
            threshold := SIMILARITY_THRESHOLD }
        auth_log := auth_log } }

/-- The verification core of the `authenticate` endpoint (`main.py`, steps
2–5 over already extracted frames): compute the fresh embedding and its
similarity against the stored one — a similarity fault (dimension mismatch)
aborts the whole call, as the endpoint's exception handler turns it into an
HTTP 500 — and otherwise assemble the response from the three verdicts. -/
noncomputable def authenticate (flowFn : Frame → Frame → MotionField)
    (embedFn : Frame → List ℝ) (stored_emb : List ℝ) (frames : List Frame)
    (expected_direction : String) (entropy : String) : Except Fault AuthResponse :=
  match computeSimilarity stored_emb (getAverageEmbedding embedFn frames) with
  | .error f => .error f
  | .ok similarity =>
    .ok (authOkResponse flowFn frames expected_direction entropy similarity)

/-- Maximum of the five candidate scores. -/
noncomputable def max5 (a b c d e : ℝ) : ℝ := max (max (max (max a b) c) d) e

open Classical in
/-- First argmax of the five candidate scores in the source's dict insertion
order `rotation, zoom_in, zoom_out, left, right`, written as a chain of `≥`
tests (an independent characterisation of `argmaxScores`). -/
noncomputable def firstArgmaxCodeOrder (sRot sZi sZo sL sR : ℝ) : String :=
  if sRot ≥ sZi ∧ sRot ≥ sZo ∧ sRot ≥ sL ∧ sRot ≥ sR then "rotation"
  else if sZi ≥ sZo ∧ sZi ≥ sL ∧ sZi ≥ sR then "zoom_in"
  else if sZo ≥ sL ∧ sZo ≥ sR then "zoom_out"
  else if sL ≥ sR then "left"
  else "right"

open Classical in
/-- Modelled from the claim's words (for comparison with the source's
argmax): ties broken by the declaration order
`rotation, zoom_in, left, zoom_out, right`. -/
noncomputable def firstArgmaxClaimOrder (sRot sZi sZo sL sR : ℝ) : String :=
  if sRot ≥ sZi ∧ sRot ≥ sL ∧ sRot ≥ sZo ∧ sRot ≥ sR then "rotation"
  else if sZi ≥ sL ∧ sZi ≥ sZo ∧ sZi ≥ sR then "zoom_in"
  else if sL ≥ sZo ∧ sL ≥ sR then "left"
  else if sZo ≥ sR then "zoom_out"
  else "right"

lemma pyRound_of_mul_eq_intCast (d : ℕ) (x : ℝ) (n : ℤ) (h : x * 10 ^ d = (n : ℝ)) :
    pyRound d x = (n : ℝ) / 10 ^ d := by
  unfold pyRound roundHalfEven
  rw [h]
  rw [Int.fract_intCast]
  norm_num

lemma roundHalfEven_nonneg (y : ℝ) (h : 0 ≤ y) : 0 ≤ roundHalfEven y := by
  unfold roundHalfEven
  split_ifs with h1 h2
  · exact Int.floor_nonneg.mpr h
  · have := Int.floor_nonneg.mpr h
    omega
  · rw [round_eq]
    have : (0 : ℝ) ≤ y + 1 / 2 := by linarith
    exact Int.floor_nonneg.mpr this

lemma pyRound_nonneg (d : ℕ) (x : ℝ) (h : 0 ≤ x) : 0 ≤ pyRound d x := by
  unfold pyRound
  apply div_nonneg
  · exact_mod_cast roundHalfEven_nonneg _ (by positivity)
  · positivity

lemma stepSnd (s : String) (v : ℝ) (p : String × ℝ) :
    (if v > p.2 then (s, v) else p).2 = max p.2 v := by
  split_ifs with h
  · exact (max_eq_right h.le).symm
  · exact (max_eq_left (not_lt.mp h)).symm

lemma stepSnd2 (s t : String) (v w : ℝ) :
    (if v > w then (s, v) else (t, w)).2 = max w v := by
  split_ifs with h
  · exact (max_eq_right h.le).symm
  · exact (max_eq_left (not_lt.mp h)).symm

lemma argmaxScores_val (a b c d e : ℝ) : (argmaxScores a b c d e).2 = max5 a b c d e := by
  unfold argmaxScores max5
  dsimp only
  rw [stepSnd, stepSnd, stepSnd, stepSnd2]

lemma chain_eq_rotation (a b c d e : ℝ) (h1 : b ≤ a) (h2 : c ≤ a) (h3 : d ≤ a)
    (h4 : e ≤ a) : firstArgmaxCodeOrder a b c d e = "rotation" := by
  unfold firstArgmaxCodeOrder
  rw [if_pos ⟨h1, h2, h3, h4⟩]

lemma chain_eq_zoom_in (a b c d e : ℝ) (h1 : a < b) (h2 : c ≤ b) (h3 : d ≤ b)
    (h4 : e ≤ b) : firstArgmaxCodeOrder a b c d e = "zoom_in" := by
  unfold firstArgmaxCodeOrder
  rw [if_neg (by rintro ⟨x1, x2, x3, x4⟩; linarith), if_pos ⟨h2, h3, h4⟩]

lemma chain_eq_zoom_out (a b c d e : ℝ) (h1 : a < b ∨ a < c ∨ a < d ∨ a < e)
    (h2 : b < c ∨ b < d ∨ b < e) (h3 : d ≤ c) (h4 : e ≤ c) :
    firstArgmaxCodeOrder a b c d e = "zoom_out" := by
  unfold firstArgmaxCodeOrder
  rw [if_neg (by rintro ⟨x1, x2, x3, x4⟩; rcases h1 with h | h | h | h <;> linarith),
    if_neg (by rintro ⟨x1, x2, x3⟩; rcases h2 with h | h | h <;> linarith),
    if_pos ⟨h3, h4⟩]

lemma chain_eq_left (a b c d e : ℝ) (h1 : a < b ∨ a < c ∨ a < d ∨ a < e)
    (h2 : b < c ∨ b < d ∨ b < e) (h3 : c < d ∨ c < e) (h4 : e ≤ d) :
    firstArgmaxCodeOrder a b c d e = "left" := by
  unfold firstArgmaxCodeOrder
  rw [if_neg (by rintro ⟨x1, x2, x3, x4⟩; rcases h1 with h | h | h | h <;> linarith),
    if_neg (by rintro ⟨x1, x2, x3⟩; rcases h2 with h | h | h <;> linarith),
    if_neg (by rintro ⟨x1, x2⟩; rcases h3 with h | h <;> linarith),
    if_pos h4]

lemma chain_eq_right (a b c d e : ℝ) (h1 : a < b ∨ a < c ∨ a < d ∨ a < e)
    (h2 : b < c ∨ b < d ∨ b < e) (h3 : c < d ∨ c < e) (h4 : d < e) :
    firstArgmaxCodeOrder a b c d e = "right" := by
  unfold firstArgmaxCodeOrder
  rw [if_neg (by rintro ⟨x1, x2, x3, x4⟩; rcases h1 with h | h | h | h <;> linarith),
    if_neg (by rintro ⟨x1, x2, x3⟩; rcases h2 with h | h | h <;> linarith),
    if_neg (by rintro ⟨x1, x2⟩; rcases h3 with h | h <;> linarith),
    if_neg (by linarith)]

lemma argmaxScores_fst (a b c d e : ℝ) :
    (argmaxScores a b c d e).1 = firstArgmaxCodeOrder a b c d e := by
  unfold argmaxScores
  dsimp only
  by_cases h1 : b > a
  · rw [if_pos h1]
    dsimp only
    by_cases h2 : c > b
    · rw [if_pos h2]
      dsimp only
      by_cases h3 : d > c
      · rw [if_pos h3]
        dsimp only
        by_cases h4 : e > d
        · rw [if_pos h4]
          exact (chain_eq_right a b c d e (.inl h1) (.inl h2) (.inl h3) h4).symm
        · rw [if_neg h4]
          exact (chain_eq_left a b c d e (.inl h1) (.inl h2) (.inl h3) (not_lt.mp h4)).symm
      · rw [if_neg h3]
        dsimp only
        by_cases h4 : e > c
        · rw [if_pos h4]
          exact (chain_eq_right a b c d e (.inl h1) (.inl h2) (.inr h4)
            (by have := not_lt.mp h3; linarith)).symm
        · rw [if_neg h4]
          exact (chain_eq_zoom_out a b c d e (.inl h1) (.inl h2) (not_lt.mp h3)
            (not_lt.mp h4)).symm
    · rw [if_neg h2]
      dsimp only
      by_cases h3 : d > b
      · rw [if_pos h3]
        dsimp only
        by_cases h4 : e > d
        · rw [if_pos h4]
          exact (chain_eq_right a b c d e (.inl h1) (.inr (.inl h3))
            (.inl (by have := not_lt.mp h2; linarith)) h4).symm
        · rw [if_neg h4]
          exact (chain_eq_left a b c d e (.inl h1) (.inr (.inl h3))
            (.inl (by have := not_lt.mp h2; linarith)) (not_lt.mp h4)).symm
      · rw [if_neg h3]
        dsimp only
        by_cases h4 : e > b
        · rw [if_pos h4]
          exact (chain_eq_right a b c d e (.inl h1) (.inr (.inr h4))
            (.inr (by have := not_lt.mp h2; linarith))
            (by have := not_lt.mp h3; linarith)).symm
        · rw [if_neg h4]
          exact (chain_eq_zoom_in a b c d e h1 (not_lt.mp h2) (not_lt.mp h3)
            (not_lt.mp h4)).symm
  · rw [if_neg h1]
    dsimp only
    by_cases h2 : c > a
    · rw [if_pos h2]
      dsimp only
      by_cases h3 : d > c
      · rw [if_pos h3]
        dsimp only
        by_cases h4 : e > d
        · rw [if_pos h4]
          exact (chain_eq_right a b c d e (.inr (.inl h2))
            (.inl (by have := not_lt.mp h1; linarith)) (.inl h3) h4).symm
        · rw [if_neg h4]
          exact (chain_eq_left a b c d e (.inr (.inl h2))
            (.inl (by have := not_lt.mp h1; linarith)) (.inl h3) (not_lt.mp h4)).symm
      · rw [if_neg h3]
        dsimp only
        by_cases h4 : e > c
        · rw [if_pos h4]
          exact (chain_eq_right a b c d e (.inr (.inl h2))
            (.inl (by have := not_lt.mp h1; linarith)) (.inr h4)
            (by have := not_lt.mp h3; linarith)).symm
        · rw [if_neg h4]
          exact (chain_eq_zoom_out a b c d e (.inr (.inl h2))
            (.inl (by have := not_lt.mp h1; linarith)) (not_lt.mp h3)
            (not_lt.mp h4)).symm
    · rw [if_neg h2]
      dsimp only
      by_cases h3 : d > a
      · rw [if_pos h3]
        dsimp only
        by_cases h4 : e > d
        · rw [if_pos h4]
          exact (chain_eq_right a b c d e (.inr (.inr (.inl h3)))
            (.inr (.inl (by have := not_lt.mp h1; linarith)))
            (.inl (by have := not_lt.mp h2; linarith)) h4).symm
        · rw [if_neg h4]
          exact (chain_eq_left a b c d e (.inr (.inr (.inl h3)))
            (.inr (.inl (by have := not_lt.mp h1; linarith)))
            (.inl (by have := not_lt.mp h2; linarith)) (not_lt.mp h4)).symm
      · rw [if_neg h3]
        dsimp only
        by_cases h4 : e > a
        · rw [if_pos h4]
          exact (chain_eq_right a b c d e (.inr (.inr (.inr h4)))
            (.inr (.inr (by have := not_lt.mp h1; linarith)))
            (.inr (by have := not_lt.mp h2; linarith))
            (by have := not_lt.mp h3; linarith)).symm
        · rw [if_neg h4]
          exact (chain_eq_rotation a b c d e (not_lt.mp h1) (not_lt.mp h2)
            (not_lt.mp h3) (not_lt.mp h4)).symm

/-- The five candidate scores packaged from the direction statistics of a
frame sequence, in the source's dict insertion order. -/
noncomputable def dirCandidates (flowFn : Frame → Frame → MotionField)
    (frames : List Frame) : ℝ × ℝ × ℝ × ℝ × ℝ :=
  let info := detectDominantDirection (computeOpticalFlow flowFn frames)
  (|info.rotation|, max info.expansion 0, max (-info.expansion) 0,
    max (-info.horizontal) 0, max info.horizontal 0)

/-- The source's argmax applied to the five candidate scores of a frame
sequence. -/
noncomputable def dirArgmax (flowFn : Frame → Frame → MotionField)
    (frames : List Frame) : String × ℝ :=
  argmaxScores (dirCandidates flowFn frames).1 (dirCandidates flowFn frames).2.1
    (dirCandidates flowFn frames).2.2.1 (dirCandidates flowFn frames).2.2.2.1
    (dirCandidates flowFn frames).2.2.2.2

/-- The maximal candidate confidence of a frame sequence. -/
noncomputable def dirMaxConfidence (flowFn : Frame → Frame → MotionField)
    (frames : List Frame) : ℝ :=
  max5 (dirCandidates flowFn frames).1 (dirCandidates flowFn frames).2.1
    (dirCandidates flowFn frames).2.2.1 (dirCandidates flowFn frames).2.2.2.1
    (dirCandidates flowFn frames).2.2.2.2

lemma dirArgmax_val (flowFn : Frame → Frame → MotionField) (frames : List Frame) :
    (dirArgmax flowFn frames).2 = dirMaxConfidence flowFn frames := by
  unfold dirArgmax dirMaxConfidence
  exact argmaxScores_val _ _ _ _ _

lemma checkChallengeDirection_main (flowFn : Frame → Frame → MotionField)
    (frames : List Frame) (expected : String) (τ : ℝ) (h : 2 ≤ frames.length) :
    checkChallengeDirection flowFn frames expected τ =
      if ¬((dirArgmax flowFn frames).1 = expected ∧ (dirArgmax flowFn frames).2 > τ) ∧
          (dirArgmax flowFn frames).2 > τ then
        ⟨true, (dirArgmax flowFn frames).1, pyRound 3 (dirArgmax flowFn frames).2,
          .leniency (dirArgmax flowFn frames).1 (dirArgmax flowFn frames).2 expected,
          some (roundDirInfo (detectDominantDirection (computeOpticalFlow flowFn frames)))⟩
      else if (dirArgmax flowFn frames).1 = expected ∧ (dirArgmax flowFn frames).2 > τ then
        ⟨true, (dirArgmax flowFn frames).1, pyRound 3 (dirArgmax flowFn frames).2,
          .matched (dirArgmax flowFn frames).1 (dirArgmax flowFn frames).2,
          some (roundDirInfo (detectDominantDirection (computeOpticalFlow flowFn frames)))⟩
      else
        ⟨false, (dirArgmax flowFn frames).1, pyRound 3 (dirArgmax flowFn frames).2,
          .mismatch (dirArgmax flowFn frames).1 (dirArgmax flowFn frames).2 expected,
          some (roundDirInfo (detectDominantDirection (computeOpticalFlow flowFn frames)))⟩ := by
  unfold checkChallengeDirection dirArgmax dirCandidates
  rw [if_neg (by omega)]

lemma dir_detected (flowFn : Frame → Frame → MotionField) (frames : List Frame)
    (expected : String) (τ : ℝ) (h : 2 ≤ frames.length) :
    (checkChallengeDirection flowFn frames expected τ).detected_direction =
      (dirArgmax flowFn frames).1 := by
  rw [checkChallengeDirection_main flowFn frames expected τ h]
  split_ifs <;> rfl

lemma dir_confidence (flowFn : Frame → Frame → MotionField) (frames : List Frame)
    (expected : String) (τ : ℝ) (h : 2 ≤ frames.length) :
    (checkChallengeDirection flowFn frames expected τ).confidence =
      pyRound 3 (dirMaxConfidence flowFn frames) := by
  rw [checkChallengeDirection_main flowFn frames expected τ h, ← dirArgmax_val]
  split_ifs <;> rfl

lemma dir_match_iff (flowFn : Frame → Frame → MotionField) (frames : List Frame)
    (expected : String) (τ : ℝ) (h : 2 ≤ frames.length) :
    ((checkChallengeDirection flowFn frames expected τ).direction_match = true ↔
      dirMaxConfidence flowFn frames > τ) := by
  rw [checkChallengeDirection_main flowFn frames expected τ h, ← dirArgmax_val]
  split_ifs with h1 h2
  · simpa using h1.2
  · simpa using h2.2
  · simp only [Bool.false_eq_true, false_iff]
    intro hconf
    exact h2 (not_not.mp (fun hns => h1 ⟨hns, hconf⟩))

lemma dir_reason (flowFn : Frame → Frame → MotionField) (frames : List Frame)
    (expected : String) (τ : ℝ) (h : 2 ≤ frames.length) :
    ((dirArgmax flowFn frames).1 = expected ∧ dirMaxConfidence flowFn frames > τ →
      (checkChallengeDirection flowFn frames expected τ).reason =
        .matched (dirArgmax flowFn frames).1 (dirMaxConfidence flowFn frames)) ∧
    ((dirArgmax flowFn frames).1 ≠ expected ∧ dirMaxConfidence flowFn frames > τ →
      (checkChallengeDirection flowFn frames expected τ).reason =
        .leniency (dirArgmax flowFn frames).1 (dirMaxConfidence flowFn frames) expected) := by
  rw [checkChallengeDirection_main flowFn frames expected τ h, ← dirArgmax_val]
  constructor
  · rintro ⟨hd, hc⟩
    rw [if_neg (by intro hx; exact hx.1 ⟨hd, hc⟩), if_pos ⟨hd, hc⟩]
  · rintro ⟨hd, hc⟩
    rw [if_pos ⟨fun hx => hd hx.1, hc⟩]

lemma checkLiveness_insufficient (flowFn : Frame → Frame → MotionField)
    (frames : List Frame) (min_motion : ℝ) (h : frames.length < 2) :
    checkLiveness flowFn frames min_motion =
      ⟨false, 0, .insufficientFrames⟩ := by
  unfold checkLiveness
  rw [if_pos h]

lemma checkChallengeDirection_insufficient (flowFn : Frame → Frame → MotionField)
    (frames : List Frame) (expected : String) (τ : ℝ) (h : frames.length < 2) :
    checkChallengeDirection flowFn frames expected τ =
      ⟨false, "unknown", 0, .insufficientFrames, none⟩ := by
  unfold checkChallengeDirection
  rw [if_pos h]

lemma dirArgmax_fst (flowFn : Frame → Frame → MotionField) (frames : List Frame) :
    (dirArgmax flowFn frames).1 =
      firstArgmaxCodeOrder (dirCandidates flowFn frames).1 (dirCandidates flowFn frames).2.1
        (dirCandidates flowFn frames).2.2.1 (dirCandidates flowFn frames).2.2.2.1
        (dirCandidates flowFn frames).2.2.2.2 := by
  unfold dirArgmax
  exact argmaxScores_fst _ _ _ _ _

lemma chain_mem (a b c d e : ℝ) :
    firstArgmaxCodeOrder a b c d e ∈
      ["rotation", "zoom_in", "zoom_out", "left", "right"] := by
  unfold firstArgmaxCodeOrder
  split_ifs <;> simp

lemma max5_nonneg_left (a b c d e : ℝ) (h : 0 ≤ a) : 0 ≤ max5 a b c d e := by
  unfold max5
  calc (0 : ℝ) ≤ a := h
    _ ≤ max a b := le_max_left a b
    _ ≤ max (max a b) c := le_max_left _ _
    _ ≤ max (max (max a b) c) d := le_max_left _ _
    _ ≤ max (max (max (max a b) c) d) e := le_max_left _ _

lemma dirMaxConfidence_nonneg (flowFn : Frame → Frame → MotionField)
    (frames : List Frame) : 0 ≤ dirMaxConfidence flowFn frames := by
  unfold dirMaxConfidence
  exact max5_nonneg_left _ _ _ _ _ (abs_nonneg _)

/-- C2: for every frame sequence of length ≥ 2 and any expected direction,
the direction verdict passes iff the maximal candidate confidence strictly
exceeds the threshold: it passes with the matched reason when the detected
direction equals the expected one, it still passes — with the distinguished
leniency reason — when the confidence clears the threshold but the detected
direction differs, and it fails exactly when the confidence is at most the
threshold. -/
theorem C2_direction_threshold_leniency (flowFn : Frame → Frame → MotionField)
    (frames : List Frame) (expected : String) (τ : ℝ) (h : 2 ≤ frames.length) :
    ((checkChallengeDirection flowFn frames expected τ).direction_match = true ↔
      dirMaxConfidence flowFn frames > τ) ∧
    ((checkChallengeDirection flowFn frames expected τ).detected_direction = expected ∧
        dirMaxConfidence flowFn frames > τ →
      (checkChallengeDirection flowFn frames expected τ).direction_match = true ∧
      (checkChallengeDirection flowFn frames expected τ).reason =
        .matched (checkChallengeDirection flowFn frames expected τ).detected_direction
          (dirMaxConfidence flowFn frames)) ∧
    (dirMaxConfidence flowFn frames > τ ∧
        (checkChallengeDirection flowFn frames expected τ).detected_direction ≠ expected →
      (checkChallengeDirection flowFn frames expected τ).direction_match = true ∧
      (checkChallengeDirection flowFn frames expected τ).reason =
        .leniency (checkChallengeDirection flowFn frames expected τ).detected_direction
          (dirMaxConfidence flowFn frames) expected) ∧
    (dirMaxConfidence flowFn frames ≤ τ →
      (checkChallengeDirection flowFn frames expected τ).direction_match = false) := by
  refine ⟨dir_match_iff flowFn frames expected τ h, ?_, ?_, ?_⟩
  · rintro ⟨hd, hc⟩
    rw [dir_detected flowFn frames expected τ h] at hd ⊢
    exact ⟨(dir_match_iff flowFn frames expected τ h).mpr hc,
      (dir_reason flowFn frames expected τ h).1 ⟨hd, hc⟩⟩
  · rintro ⟨hc, hd⟩
    rw [dir_detected flowFn frames expected τ h] at hd ⊢
    exact ⟨(dir_match_iff flowFn frames expected τ h).mpr hc,
      (dir_reason flowFn frames expected τ h).2 ⟨hd, hc⟩⟩
  · intro hle
    cases hb : (checkChallengeDirection flowFn frames expected τ).direction_match with
    | false => rfl
    | true =>
      exact absurd ((dir_match_iff flowFn frames expected τ h).mp hb) (not_lt.mpr hle)

/-- Witness for C2 at a concrete two frame sequence with a constant
rightward unit flow. -/
theorem C2_witness :
    2 ≤ ([0, 1] : List Frame).length ∧
    (((checkChallengeDirection (fun _ _ => [[((1 : ℝ), 0)]]) [0, 1] "right"
          0.3).direction_match = true ↔
      dirMaxConfidence (fun _ _ => [[((1 : ℝ), 0)]]) [0, 1] > 0.3) ∧
    ((checkChallengeDirection (fun _ _ => [[((1 : ℝ), 0)]]) [0, 1] "right"
          0.3).detected_direction = "right" ∧
        dirMaxConfidence (fun _ _ => [[((1 : ℝ), 0)]]) [0, 1] > 0.3 →
      (checkChallengeDirection (fun _ _ => [[((1 : ℝ), 0)]]) [0, 1] "right"
          0.3).direction_match = true ∧
      (checkChallengeDirection (fun _ _ => [[((1 : ℝ), 0)]]) [0, 1] "right"
          0.3).reason =
        .matched (checkChallengeDirection (fun _ _ => [[((1 : ℝ), 0)]]) [0, 1] "right"
            0.3).detected_direction
          (dirMaxConfidence (fun _ _ => [[((1 : ℝ), 0)]]) [0, 1])) ∧
    (dirMaxConfidence (fun _ _ => [[((1 : ℝ), 0)]]) [0, 1] > 0.3 ∧
        (checkChallengeDirection (fun _ _ => [[((1 : ℝ), 0)]]) [0, 1] "right"
            0.3).detected_direction ≠ "right" →
      (checkChallengeDirection (fun _ _ => [[((1 : ℝ), 0)]]) [0, 1] "right"
          0.3).direction_match = true ∧
      (checkChallengeDirection (fun _ _ => [[((1 : ℝ), 0)]]) [0, 1] "right"
          0.3).reason =
        .leniency (checkChallengeDirection (fun _ _ => [[((1 : ℝ), 0)]]) [0, 1] "right"
            0.3).detected_direction
          (dirMaxConfidence (fun _ _ => [[((1 : ℝ), 0)]]) [0, 1]) "right") ∧
    (dirMaxConfidence (fun _ _ => [[((1 : ℝ), 0)]]) [0, 1] ≤ 0.3 →
      (checkChallengeDirection (fun _ _ => [[((1 : ℝ), 0)]]) [0, 1] "right"
          0.3).direction_match = false)) :=
  ⟨by decide, C2_direction_threshold_leniency _ _ _ _ (by decide)⟩

/-- C10: the direction verdict always carries a non negative confidence,
its detected direction is one of the five candidate keys when at least two
frames are available, and it is the distinguished value `"unknown"`
otherwise. -/
theorem C10_direction_verdict_invariants (flowFn : Frame → Frame → MotionField)
    (frames : List Frame) (expected : String) (τ : ℝ) :
    0 ≤ (checkChallengeDirection flowFn frames expected τ).confidence ∧
    (2 ≤ frames.length →
      (checkChallengeDirection flowFn frames expected τ).detected_direction ∈
        ["rotation", "zoom_in", "zoom_out", "left", "right"]) ∧
    (frames.length < 2 →
      (checkChallengeDirection flowFn frames expected τ).detected_direction = "unknown" ∧
      (checkChallengeDirection flowFn frames expected τ).confidence = 0) := by
  by_cases hl : frames.length < 2
  · rw [checkChallengeDirection_insufficient flowFn frames expected τ hl]
    exact ⟨le_refl 0, fun h2 => absurd h2 (by omega), fun _ => ⟨rfl, rfl⟩⟩
  · have h2 : 2 ≤ frames.length := by omega
    refine ⟨?_, fun _ => ?_, fun hc => absurd hc hl⟩
    · rw [dir_confidence flowFn frames expected τ h2]
      exact pyRound_nonneg _ _ (dirMaxConfidence_nonneg flowFn frames)
    · rw [dir_detected flowFn frames expected τ h2, dirArgmax_fst]
      exact chain_mem _ _ _ _ _

/-- Witness for C10 at a concrete one frame sequence. -/
theorem C10_witness :
    0 ≤ (checkChallengeDirection (fun _ _ => []) [0] "rotation" 0.3).confidence ∧
    (2 ≤ ([0] : List Frame).length →
      (checkChallengeDirection (fun _ _ => []) [0] "rotation" 0.3).detected_direction ∈
        ["rotation", "zoom_in", "zoom_out", "left", "right"]) ∧
    (([0] : List Frame).length < 2 →
      (checkChallengeDirection (fun _ _ => []) [0] "rotation" 0.3).detected_direction =
        "unknown" ∧
      (checkChallengeDirection (fun _ _ => []) [0] "rotation" 0.3).confidence = 0) :=
  C10_direction_verdict_invariants (fun _ _ => []) [0] "rotation" 0.3

/-- C5: with fewer than two frames, verification produces the negative
liveness verdict (not live, zero motion score, insufficient frames reason)
and the negative direction verdict (no match, detected direction
`"unknown"`, zero confidence), and the dense flow primitive is never
invoked: the verdicts do not depend on the flow provider at all. -/
theorem C5_insufficient_frames_verdicts (flowFn g : Frame → Frame → MotionField)
    (frames : List Frame) (expected : String) (min_motion τ : ℝ)
    (h : frames.length < 2) :
    checkLiveness flowFn frames min_motion = ⟨false, 0, .insufficientFrames⟩ ∧
    checkChallengeDirection flowFn frames expected τ =
      ⟨false, "unknown", 0, .insufficientFrames, none⟩ ∧
    checkLiveness g frames min_motion = checkLiveness flowFn frames min_motion ∧
    checkChallengeDirection g frames expected τ =
      checkChallengeDirection flowFn frames expected τ := by
  refine ⟨checkLiveness_insufficient flowFn frames min_motion h,
    checkChallengeDirection_insufficient flowFn frames expected τ h, ?_, ?_⟩
  · rw [checkLiveness_insufficient flowFn frames min_motion h,
      checkLiveness_insufficient g frames min_motion h]
  · rw [checkChallengeDirection_insufficient flowFn frames expected τ h,
      checkChallengeDirection_insufficient g frames expected τ h]

/-- Witness for C5 at a concrete one frame sequence and two different flow
providers. -/
theorem C5_witness :
    checkLiveness (fun _ _ => [[((1 : ℝ), 1)]]) [0] 1.5 =
      ⟨false, 0, .insufficientFrames⟩ ∧
    checkChallengeDirection (fun _ _ => [[((1 : ℝ), 1)]]) [0] "left" 0.3 =
      ⟨false, "unknown", 0, .insufficientFrames, none⟩ ∧
    checkLiveness (fun _ _ => []) [0] 1.5 =
      checkLiveness (fun _ _ => [[((1 : ℝ), 1)]]) [0] 1.5 ∧
    checkChallengeDirection (fun _ _ => []) [0] "left" 0.3 =
      checkChallengeDirection (fun _ _ => [[((1 : ℝ), 1)]]) [0] "left" 0.3 :=
  C5_insufficient_frames_verdicts (fun _ _ => [[((1 : ℝ), 1)]]) (fun _ _ => [])
    [0] "left" 1.5 0.3 (by decide)

/-- C3 (amended): for every frame sequence of length ≥ 2, the detected
direction is the argmax over the five non negative candidates
`rotation = |rotation|`, `zoom_in = max(expansion, 0)`,
`zoom_out = max(−expansion, 0)`, `left = max(−horizontal, 0)`,
`right = max(horizontal, 0)`, with ties broken by the scores dict insertion
order `rotation, zoom_in, zoom_out, left, right`, and the returned
confidence is that maximal candidate value rounded to three decimals. -/
theorem C3_amended_argmax_code_order (flowFn : Frame → Frame → MotionField)
    (frames : List Frame) (expected : String) (τ : ℝ) (h : 2 ≤ frames.length) :
    (checkChallengeDirection flowFn frames expected τ).detected_direction =
      firstArgmaxCodeOrder
        |(detectDominantDirection (computeOpticalFlow flowFn frames)).rotation|
        (max (detectDominantDirection (computeOpticalFlow flowFn frames)).expansion 0)
        (max (-(detectDominantDirection (computeOpticalFlow flowFn frames)).expansion) 0)
        (max (-(detectDominantDirection (computeOpticalFlow flowFn frames)).horizontal) 0)
        (max (detectDominantDirection (computeOpticalFlow flowFn frames)).horizontal 0) ∧
    (checkChallengeDirection flowFn frames expected τ).confidence =
      pyRound 3 (max5
        |(detectDominantDirection (computeOpticalFlow flowFn frames)).rotation|
        (max (detectDominantDirection (computeOpticalFlow flowFn frames)).expansion 0)
        (max (-(detectDominantDirection (computeOpticalFlow flowFn frames)).expansion) 0)
        (max (-(detectDominantDirection (computeOpticalFlow flowFn frames)).horizontal) 0)
        (max (detectDominantDirection (computeOpticalFlow flowFn frames)).horizontal 0)) := by
  constructor
  · rw [dir_detected flowFn frames expected τ h, dirArgmax_fst]
    rfl
  · rw [dir_confidence flowFn frames expected τ h]
    rfl

lemma unitRadial_1_1_0_0 : unitRadial 1 1 0 0 = (0, 0) := by
  unfold unitRadial
  norm_num

lemma unitRadial_1_3_0_0 : unitRadial 1 3 0 0 = (-(1 / (1 + 1e-8)), 0) := by
  unfold unitRadial
  have hcx : (((3 : ℕ) : ℤ) / 2 : ℤ) = 1 := by decide
  have hcy : (((1 : ℕ) : ℤ) / 2 : ℤ) = 0 := by decide
  rw [hcx, hcy]
  norm_num

lemma unitRadial_1_3_0_1 : unitRadial 1 3 0 1 = (0, 0) := by
  unfold unitRadial
  have hcx : (((3 : ℕ) : ℤ) / 2 : ℤ) = 1 := by decide
  have hcy : (((1 : ℕ) : ℤ) / 2 : ℤ) = 0 := by decide
  rw [hcx, hcy]
  norm_num

lemma unitRadial_1_3_0_2 : unitRadial 1 3 0 2 = (1 / (1 + 1e-8), 0) := by
  unfold unitRadial
  have hcx : (((3 : ℕ) : ℤ) / 2 : ℤ) = 1 := by decide
  have hcy : (((1 : ℕ) : ℤ) / 2 : ℤ) = 0 := by decide
  rw [hcx, hcy]
  norm_num

/-- A concrete 1×3 motion field engineering an exact tie between the
`zoom_out` and `left` candidate scores: with `ε = 1e-8` and `c = 1/2500`,
the entries are `dx = 0`, `dx = 3·c·ε` and `dx = −3·c·(1+ε)` (all `dy = 0`),
so that the mean horizontal flow and the mean radial projection both equal
`−c`. -/
noncomputable def tieField : MotionField :=
  [[((0 : ℝ), 0), ((3 / 250000000000 : ℝ), 0),
    ((-(3 / 2500) - 3 / 250000000000 : ℝ), 0)]]

/-- A flow provider constantly returning `tieField`. -/
noncomputable def tieFlowFn : Frame → Frame → MotionField := fun _ _ => tieField

lemma tie_info :
    detectDominantDirection (computeOpticalFlow tieFlowFn [0, 1]) =
      ⟨-(1 / 2500), 0, -(1 / 2500), 0⟩ := by
  have hflows : computeOpticalFlow tieFlowFn [0, 1] = [tieField] := rfl
  rw [hflows]
  unfold detectDominantDirection
  norm_num [pixelMean, pixelSum, flowH, flowW, tieField, gridPixelSum, rowPixelSum,
    unitRadial_1_3_0_0, unitRadial_1_3_0_1, unitRadial_1_3_0_2, DirInfo.mk.injEq]

lemma roundHalfEven_eq_of_lt_half (y : ℝ) (n : ℤ) (h1 : (n : ℝ) ≤ y)
    (h2 : y < (n : ℝ) + 1 / 2) : roundHalfEven y = n := by
  have hfl : ⌊y⌋ = n := Int.floor_eq_iff.mpr ⟨h1, by linarith⟩

  have hfr : Int.fract y ≠ 1 / 2 := by
    rw [Int.fract, hfl]
    intro hc
    have : y = (n : ℝ) + 1 / 2 := by linarith
    linarith
  unfold roundHalfEven
  rw [if_neg hfr, round_eq]
  exact Int.floor_eq_iff.mpr ⟨by linarith, by linarith⟩

lemma pyRound_3_of_1_2500 : pyRound 3 ((1 : ℝ) / 2500) = 0 := by
  unfold pyRound
  rw [show ((1 : ℝ) / 2500) * 10 ^ 3 = 2 / 5 by norm_num,
    roundHalfEven_eq_of_lt_half (2 / 5) 0 (by norm_num) (by norm_num)]
  norm_num

lemma tie_candidates :
    dirCandidates tieFlowFn [0, 1] = (0, 0, 1 / 2500, 1 / 2500, 0) := by
  unfold dirCandidates
  rw [tie_info]
  norm_num [max_def]

lemma tie_detected :
    (checkChallengeDirection tieFlowFn [0, 1] "rotation" 0.3).detected_direction =
      "zoom_out" := by
  rw [dir_detected tieFlowFn [0, 1] "rotation" 0.3 (by decide), dirArgmax_fst,
    tie_candidates]
  exact chain_eq_zoom_out 0 0 (1 / 2500) (1 / 2500) 0 (.inr (.inl (by norm_num)))
    (.inl (by norm_num)) (le_refl _) (by norm_num)

lemma tie_maxconf : dirMaxConfidence tieFlowFn [0, 1] = 1 / 2500 := by
  unfold dirMaxConfidence
  rw [tie_candidates]
  norm_num [max5, max_def]

lemma tie_confidence :
    (checkChallengeDirection tieFlowFn [0, 1] "rotation" 0.3).confidence = 0 := by
  rw [dir_confidence tieFlowFn [0, 1] "rotation" 0.3 (by decide), tie_maxconf,
    pyRound_3_of_1_2500]

lemma tie_claim_argmax :
    firstArgmaxClaimOrder
      |(detectDominantDirection (computeOpticalFlow tieFlowFn [0, 1])).rotation|
      (max (detectDominantDirection (computeOpticalFlow tieFlowFn [0, 1])).expansion 0)
      (max (-(detectDominantDirection (computeOpticalFlow tieFlowFn [0, 1])).expansion) 0)
      (max (-(detectDominantDirection (computeOpticalFlow tieFlowFn [0, 1])).horizontal) 0)
      (max (detectDominantDirection (computeOpticalFlow tieFlowFn [0, 1])).horizontal 0) =
      "left" := by
  rw [tie_info]
  norm_num [max_def, firstArgmaxClaimOrder]

lemma tie_max5 :
    max5 |(detectDominantDirection (computeOpticalFlow tieFlowFn [0, 1])).rotation|
      (max (detectDominantDirection (computeOpticalFlow tieFlowFn [0, 1])).expansion 0)
      (max (-(detectDominantDirection (computeOpticalFlow tieFlowFn [0, 1])).expansion) 0)
      (max (-(detectDominantDirection (computeOpticalFlow tieFlowFn [0, 1])).horizontal) 0)
      (max (detectDominantDirection (computeOpticalFlow tieFlowFn [0, 1])).horizontal 0) =
      1 / 2500 := by
  rw [tie_info]
  norm_num [max_def, max5]

/-- C3 counterexample: on a concrete two frame sequence whose motion field
makes the `zoom_out` and `left` candidate scores tie at `1/2500` (all other
candidates zero), the source detects `"zoom_out"` — the scores dict
insertion order puts `zoom_out` before `left` — while the claim's tie break
order predicts `"left"`; moreover the returned confidence is the rounded
value `0`, not the maximal candidate value `1/2500`. -/
theorem C3_counterexample :
    (checkChallengeDirection tieFlowFn [0, 1] "rotation" 0.3).detected_direction =
      "zoom_out" ∧
    firstArgmaxClaimOrder
      |(detectDominantDirection (computeOpticalFlow tieFlowFn [0, 1])).rotation|
      (max (detectDominantDirection (computeOpticalFlow tieFlowFn [0, 1])).expansion 0)
      (max (-(detectDominantDirection (computeOpticalFlow tieFlowFn [0, 1])).expansion) 0)
      (max (-(detectDominantDirection (computeOpticalFlow tieFlowFn [0, 1])).horizontal) 0)
      (max (detectDominantDirection (computeOpticalFlow tieFlowFn [0, 1])).horizontal 0) =
      "left" ∧
    (checkChallengeDirection tieFlowFn [0, 1] "rotation" 0.3).confidence = 0 ∧
    max5 |(detectDominantDirection (computeOpticalFlow tieFlowFn [0, 1])).rotation|
      (max (detectDominantDirection (computeOpticalFlow tieFlowFn [0, 1])).expansion 0)
      (max (-(detectDominantDirection (computeOpticalFlow tieFlowFn [0, 1])).expansion) 0)
      (max (-(detectDominantDirection (computeOpticalFlow tieFlowFn [0, 1])).horizontal) 0)
      (max (detectDominantDirection (computeOpticalFlow tieFlowFn [0, 1])).horizontal 0) =
      1 / 2500 ∧
    ¬((checkChallengeDirection tieFlowFn [0, 1] "rotation" 0.3).detected_direction =
        firstArgmaxClaimOrder
          |(detectDominantDirection (computeOpticalFlow tieFlowFn [0, 1])).rotation|
          (max (detectDominantDirection (computeOpticalFlow tieFlowFn [0, 1])).expansion 0)
          (max (-(detectDominantDirection (computeOpticalFlow tieFlowFn [0, 1])).expansion) 0)
          (max (-(detectDominantDirection (computeOpticalFlow tieFlowFn [0, 1])).horizontal) 0)
          (max (detectDominantDirection (computeOpticalFlow tieFlowFn [0, 1])).horizontal 0) ∧
      (checkChallengeDirection tieFlowFn [0, 1] "rotation" 0.3).confidence =
        max5 |(detectDominantDirection (computeOpticalFlow tieFlowFn [0, 1])).rotation|
          (max (detectDominantDirection (computeOpticalFlow tieFlowFn [0, 1])).expansion 0)
          (max (-(detectDominantDirection (computeOpticalFlow tieFlowFn [0, 1])).expansion) 0)
          (max (-(detectDominantDirection (computeOpticalFlow tieFlowFn [0, 1])).horizontal) 0)
          (max (detectDominantDirection (computeOpticalFlow tieFlowFn [0, 1])).horizontal 0)) := by
  refine ⟨tie_detected, tie_claim_argmax, tie_confidence, tie_max5, ?_⟩
  rintro ⟨hA, hB⟩
  rw [tie_detected, tie_claim_argmax] at hA
  exact absurd hA (by decide)

/-- Witness for the amended C3 at the concrete tie input. -/
theorem C3_amended_witness :
    2 ≤ ([0, 1] : List Frame).length ∧
    ((checkChallengeDirection tieFlowFn [0, 1] "rotation" 0.3).detected_direction =
      firstArgmaxCodeOrder
        |(detectDominantDirection (computeOpticalFlow tieFlowFn [0, 1])).rotation|
        (max (detectDominantDirection (computeOpticalFlow tieFlowFn [0, 1])).expansion 0)
        (max (-(detectDominantDirection (computeOpticalFlow tieFlowFn [0, 1])).expansion) 0)
        (max (-(detectDominantDirection (computeOpticalFlow tieFlowFn [0, 1])).horizontal) 0)
        (max (detectDominantDirection (computeOpticalFlow tieFlowFn [0, 1])).horizontal 0) ∧
    (checkChallengeDirection tieFlowFn [0, 1] "rotation" 0.3).confidence =
      pyRound 3 (max5
        |(detectDominantDirection (computeOpticalFlow tieFlowFn [0, 1])).rotation|
        (max (detectDominantDirection (computeOpticalFlow tieFlowFn [0, 1])).expansion 0)
        (max (-(detectDominantDirection (computeOpticalFlow tieFlowFn [0, 1])).expansion) 0)
        (max (-(detectDominantDirection (computeOpticalFlow tieFlowFn [0, 1])).horizontal) 0)
        (max (detectDominantDirection (computeOpticalFlow tieFlowFn [0, 1])).horizontal 0))) :=
  ⟨by decide, C3_amended_argmax_code_order tieFlowFn [0, 1] "rotation" 0.3 (by decide)⟩

lemma zipWith_add_comm (a b : List ℝ) :
    List.zipWith (· + ·) a b = List.zipWith (· + ·) b a :=
  List.zipWith_comm_of_comm _ add_comm a b

lemma zipWith_add_right_comm (z a b : List ℝ) :
    List.zipWith (· + ·) (List.zipWith (· + ·) z a) b =
      List.zipWith (· + ·) (List.zipWith (· + ·) z b) a := by
  apply List.ext_getElem
  · simp only [List.length_zipWith]
    omega
  · intro i h1 h2
    simp only [List.getElem_zipWith]
    ring

/-- Fold the componentwise sum of a family of vectors, seeding the
accumulator with the first vector. -/
def headFold (l : List (List ℝ)) : Option (List ℝ) :=
  l.foldl (fun acc u =>
    match acc with
    | none => some u
    | some a => some (List.zipWith (· + ·) a u)) none

lemma headFold_step_aux (vs : List (List ℝ)) : ∀ a : List ℝ,
    vs.foldl (fun acc u =>
      match acc with
      | none => some u
      | some w => some (List.zipWith (· + ·) w u)) (some a) =
      some (vs.foldl (fun acc u => List.zipWith (· + ·) acc u) a) := by
  induction vs with
  | nil => intro a; rfl
  | cons v vs ih => intro a; simp only [List.foldl_cons]; exact ih _

lemma headFold_cons (v : List ℝ) (vs : List (List ℝ)) :
    headFold (v :: vs) = some (vs.foldl (fun acc u => List.zipWith (· + ·) acc u) v) := by
  unfold headFold
  simp only [List.foldl_cons]
  exact headFold_step_aux vs v

lemma headFold_perm (l1 l2 : List (List ℝ)) (h : l1.Perm l2) :
    headFold l1 = headFold l2 := by
  unfold headFold
  letI : RightCommutative (fun (acc : Option (List ℝ)) (u : List ℝ) =>
      match acc with
      | none => some u
      | some a => some (List.zipWith (· + ·) a u)) :=
    ⟨by
      intro acc u w
      cases acc with
      | none => simp only []; rw [zipWith_add_comm]
      | some a => simp only []; rw [zipWith_add_right_comm]⟩
  exact h.foldl_eq none

lemma meanVec_perm (l1 l2 : List (List ℝ)) (h : l1.Perm l2) :
    meanVec l1 = meanVec l2 := by
  cases l1 with
  | nil =>
    rw [List.Perm.eq_nil h.symm]
  | cons v vs =>
    cases l2 with
    | nil => exact absurd (List.Perm.eq_nil h) (by simp)
    | cons w ws =>
      have hh := headFold_perm (v :: vs) (w :: ws) h
      rw [headFold_cons, headFold_cons] at hh
      show (List.foldl (fun acc u => List.zipWith (· + ·) acc u) v vs).map
          (fun x => x / ((v :: vs).length : ℝ)) =
        (List.foldl (fun acc u => List.zipWith (· + ·) acc u) w ws).map
          (fun x => x / ((w :: ws).length : ℝ))
      rw [Option.some.inj hh, h.length_eq]

/-- C8: for a nonempty frame list, the embedding aggregator returns the
componentwise arithmetic mean of the per frame feature vectors divided by
the sum of its L2 norm and `ε = 1e-8`; that denominator is strictly
positive (so the aggregator is total even on an all zero mean), and — with
the extractor a deterministic per frame function — the output is invariant
under any permutation of the input frames. -/
theorem C8_average_embedding_normalized_perm (embedFn : Frame → List ℝ)
    (frames frames2 : List Frame) (_h1 : frames ≠ []) (h2 : frames.Perm frames2) :
    getAverageEmbedding embedFn frames =
      (meanVec (frames.map embedFn)).map
        (fun x => x / (l2norm (meanVec (frames.map embedFn)) + 1e-8)) ∧
    0 < l2norm (meanVec (frames.map embedFn)) + 1e-8 ∧
    getAverageEmbedding embedFn frames2 = getAverageEmbedding embedFn frames := by
  refine ⟨rfl, ?_, ?_⟩
  · have := Real.sqrt_nonneg ((meanVec (frames.map embedFn)).map (fun x => x ^ 2)).sum
    unfold l2norm
    norm_num
    linarith
  · unfold getAverageEmbedding
    rw [meanVec_perm (frames2.map embedFn) (frames.map embedFn)
      ((h2.map embedFn).symm)]

/-- Witness for C8 on a concrete two frame list and its reversal. -/
theorem C8_witness :
    getAverageEmbedding (fun _ => [1, 2]) [0, 1] =
      (meanVec (([0, 1] : List Frame).map (fun _ => [1, 2]))).map
        (fun x => x / (l2norm (meanVec (([0, 1] : List Frame).map (fun _ => [1, 2]))) + 1e-8)) ∧
    0 < l2norm (meanVec (([0, 1] : List Frame).map (fun _ => [1, 2]))) + 1e-8 ∧
    getAverageEmbedding (fun _ => [1, 2]) [1, 0] =
      getAverageEmbedding (fun _ => [1, 2]) [0, 1] :=
  C8_average_embedding_normalized_perm (fun _ => [1, 2]) [0, 1] [1, 0]
    (by decide) (by decide)

lemma linspaceIdx_lt (T n : ℕ) (hT : 1 ≤ T) : ∀ i ∈ linspaceIdx T n, i < T := by
  intro i hi
  unfold linspaceIdx at hi
  simp only [List.mem_map, List.mem_range] at hi
  obtain ⟨j, hj, rfl⟩ := hi
  split_ifs with h
  · omega
  · have h1 : j ≤ n - 1 := by omega
    have h2 : j * (T - 1) / (n - 1) ≤ (n - 1) * (T - 1) / (n - 1) :=
      Nat.div_le_div_right (Nat.mul_le_mul_right _ h1)
    rw [Nat.mul_div_cancel_left _ (by omega : 0 < n - 1)] at h2
    omega

lemma filterMap_getElem_of_lt (video : List Frame) (l : List ℕ)
    (h : ∀ i ∈ l, i < video.length) :
    l.filterMap (fun i => video[i]?) = l.map (fun i => video.getD i 0) := by
  induction l with
  | nil => rfl
  | cons j t ih =>
    have hj : j < video.length := h j (by simp)
    simp only [List.filterMap_cons, List.map_cons,
      List.getElem?_eq_getElem hj]
    rw [ih (fun i hi => h i (List.mem_cons_of_mem _ hi))]
    rw [List.getD_eq_getElem?_getD, List.getElem?_eq_getElem hj]
    rfl

/-- C9 (amended): frame decoding over a video with an accurate container
frame count fails with the distinguished error exactly when zero frames are
recoverable; otherwise it reads and returns the frame at every index of
`np.linspace(0, total−1, n, dtype=int)`, i.e. at the truncated indices
`⌊i·(total−1)/(n−1)⌋` — always `n` frames, so when `total < n` some frames
are repeated rather than only the available ones being returned. -/
theorem C9_amended_extract_frames (video : List Frame) (n : ℕ)
    (h1 : video ≠ []) (h2 : 1 ≤ n) :
    extractFrames ([] : List Frame) n = .error .noFrames ∧
    extractFrames video n =
      .ok ((linspaceIdx video.length n).map (fun i => video.getD i 0)) ∧
    ((linspaceIdx video.length n).map (fun i => video.getD i 0)).length = n := by
  have hlen : video.length ≠ 0 := fun hc => h1 (List.length_eq_zero.mp hc)
  have hmaps : ((linspaceIdx video.length n).map
      (fun i => video.getD i 0)).length = n := by
    unfold linspaceIdx
    simp
  refine ⟨rfl, ?_, hmaps⟩
  unfold extractFrames
  rw [if_neg hlen]
  dsimp only
  rw [filterMap_getElem_of_lt video (linspaceIdx video.length n)
    (linspaceIdx_lt video.length n (by omega))]
  rw [if_neg (by rw [hmaps]; omega)]

/-- Witness for the amended C9 on a concrete five frame video. -/
theorem C9_amended_witness :
    extractFrames ([] : List Frame) 10 = .error .noFrames ∧
    extractFrames (List.range 5) 10 =
      .ok ((linspaceIdx (List.range 5).length 10).map
        (fun i => (List.range 5).getD i 0)) ∧
    ((linspaceIdx (List.range 5).length 10).map
      (fun i => (List.range 5).getD i 0)).length = 10 :=
  C9_amended_extract_frames (List.range 5) 10 (by decide) (by decide)

instance : DecidableEq (Except ExtractError (List Frame)) := fun a b => by
  cases a with
  | ok x =>
    cases b with
    | ok y =>
      exact decidable_of_iff (x = y) ⟨fun hx => by rw [hx], fun hx => by injection hx⟩
    | error y => exact isFalse (fun hc => by injection hc)
  | error x =>
    cases b with
    | ok y => exact isFalse (fun hc => by injection hc)
    | error y =>
      exact decidable_of_iff (x = y) ⟨fun hx => by rw [hx], fun hx => by injection hx⟩

/-- C9 counterexample: with 12 recoverable frames and target 10, the code
truncates the linspace indices (`i·11/9`), returning frame 4 where the
claim's `round` formula selects frame 5 (and similarly at other indices);
with 3 recoverable frames and target 10, the code returns 10 frames with
duplicates instead of the 3 available frames. -/
theorem C9_counterexample :
    extractFrames (List.range 12) 10 = .ok [0, 1, 2, 3, 4, 6, 7, 8, 9, 11] ∧
    specExtractFrames (List.range 12) 10 = .ok [0, 1, 2, 4, 5, 6, 7, 9, 10, 11] ∧
    extractFrames (List.range 3) 10 = .ok [0, 0, 0, 0, 0, 1, 1, 1, 1, 2] ∧
    specExtractFrames (List.range 3) 10 = .ok [0, 1, 2] ∧
    extractFrames (List.range 12) 10 ≠ specExtractFrames (List.range 12) 10 ∧
    extractFrames (List.range 3) 10 ≠ specExtractFrames (List.range 3) 10 := by
  refine ⟨by decide, by decide, by decide, by decide, ?_, ?_⟩ <;> decide

lemma checkLiveness_main (flowFn : Frame → Frame → MotionField)
    (frames : List Frame) (min_motion : ℝ) (h : 2 ≤ frames.length) :
    checkLiveness flowFn frames min_motion =
      if avgMagnitude (computeOpticalFlow flowFn frames) < min_motion then
        ⟨false, pyRound 3 (avgMagnitude (computeOpticalFlow flowFn frames)),
          .staticReplay (avgMagnitude (computeOpticalFlow flowFn frames)) min_motion⟩
      else
        ⟨true, pyRound 3 (avgMagnitude (computeOpticalFlow flowFn frames)),
          .liveMotion (avgMagnitude (computeOpticalFlow flowFn frames)) min_motion⟩ := by
  unfold checkLiveness
  rw [if_neg (by omega)]

lemma sqrtEval (a b : ℝ) (hb : 0 ≤ b) (h : a = b ^ 2) : Real.sqrt a = b := by
  rw [h]
  exact Real.sqrt_sq hb

/-- The flow provider of the concrete accepting run: a single pixel field
with displacement `(2, 0)`. -/
noncomputable def accFlowFn : Frame → Frame → MotionField := fun _ _ => [[((2 : ℝ), 0)]]

/-- The extractor of the concrete accepting run: every frame embeds to
`[3, 4]`. -/
noncomputable def accEmbedFn : Frame → List ℝ := fun _ => [3, 4]

lemma acc_avgMagnitude : avgMagnitude (computeOpticalFlow accFlowFn [0, 1]) = 2 := by
  have hflows : computeOpticalFlow accFlowFn [0, 1] = [[[((2 : ℝ), 0)]]] := rfl
  rw [hflows]
  unfold avgMagnitude flowMagnitudeMean pixelMean pixelSum flowH flowW
  norm_num [gridPixelSum, rowPixelSum]
  exact sqrtEval 4 2 (by norm_num) (by norm_num)

lemma pyRound_3_2 : pyRound 3 (2 : ℝ) = 2 := by
  rw [pyRound_of_mul_eq_intCast 3 2 2000 (by norm_num)]
  norm_num

lemma pyRound_3_0 : pyRound 3 (0 : ℝ) = 0 := by
  rw [pyRound_of_mul_eq_intCast 3 0 0 (by norm_num)]
  norm_num

lemma acc_liveness :
    checkLiveness accFlowFn [0, 1] 1.5 = ⟨true, 2, .liveMotion 2 1.5⟩ := by
  rw [checkLiveness_main accFlowFn [0, 1] 1.5 (by decide), acc_avgMagnitude,
    if_neg (by norm_num), pyRound_3_2]

lemma acc_info :
    detectDominantDirection (computeOpticalFlow accFlowFn [0, 1]) = ⟨2, 0, 0, 0⟩ := by
  have hflows : computeOpticalFlow accFlowFn [0, 1] = [[[((2 : ℝ), 0)]]] := rfl
  rw [hflows]
  unfold detectDominantDirection
  norm_num [pixelMean, pixelSum, flowH, flowW, gridPixelSum, rowPixelSum,
    unitRadial_1_1_0_0, DirInfo.mk.injEq]

lemma acc_candidates : dirCandidates accFlowFn [0, 1] = (0, 0, 0, 0, 2) := by
  unfold dirCandidates
  rw [acc_info]
  norm_num [max_def]

lemma acc_argmax : dirArgmax accFlowFn [0, 1] = ("right", 2) := by
  unfold dirArgmax
  rw [acc_candidates]
  unfold argmaxScores
  norm_num

lemma acc_direction :
    checkChallengeDirection accFlowFn [0, 1] "right" 0.3 =
      ⟨true, "right", 2, .matched "right" 2, some ⟨2, 0, 0, 0⟩⟩ := by
  rw [checkChallengeDirection_main accFlowFn [0, 1] "right" 0.3 (by decide)]
  rw [acc_argmax, acc_info]
  norm_num [roundDirInfo, pyRound_3_2, pyRound_3_0, DirectionResult.mk.injEq,
    DirReason.matched.injEq, DirInfo.mk.injEq]

lemma acc_average :
    getAverageEmbedding accEmbedFn [0, 1] =
      [3 / (5 + 1e-8), 4 / (5 + 1e-8)] := by
  unfold getAverageEmbedding accEmbedFn
  have hmean : meanVec (([0, 1] : List Frame).map (fun _ => [(3 : ℝ), 4])) = [3, 4] := by
    show meanVec [[(3 : ℝ), 4], [3, 4]] = [3, 4]
    unfold meanVec
    norm_num [List.zipWith]
  rw [hmean]
  dsimp only
  have hnorm : l2norm [(3 : ℝ), 4] = 5 := by
    unfold l2norm
    norm_num
    exact sqrtEval 25 5 (by norm_num) (by norm_num)
  rw [hnorm]
  norm_num

lemma acc_similarity :
    computeSimilarity [1, 0] (getAverageEmbedding accEmbedFn [0, 1]) =
      .ok (3 / 5) := by
  rw [acc_average]
  unfold computeSimilarity
  rw [if_neg (by norm_num)]
  have hna : sklNormalize [(1 : ℝ), 0] = [1, 0] := by
    unfold sklNormalize
    have h1 : l2norm [(1 : ℝ), 0] = 1 := by
      unfold l2norm
      norm_num
    rw [h1]
    norm_num
  have h2 : l2norm [(3 : ℝ) / (5 + 1e-8), 4 / (5 + 1e-8)] = 5 / (5 + 1e-8) := by
    unfold l2norm
    rw [show (([(3 : ℝ) / (5 + 1e-8), 4 / (5 + 1e-8)].map (fun x => x ^ 2)).sum)
        = (5 / (5 + 1e-8)) ^ 2 by simp only [List.map, List.sum_cons, List.sum_nil]; ring]
    exact Real.sqrt_sq (by norm_num)
  have hnb : sklNormalize [3 / (5 + 1e-8), 4 / (5 + 1e-8)] = [3 / 5, 4 / 5] := by
    unfold sklNormalize
    rw [h2, if_neg (by norm_num)]
    norm_num
  rw [hna, hnb]
  unfold dotList
  norm_num

lemma authenticate_ok_eq (flowFn : Frame → Frame → MotionField)
    (embedFn : Frame → List ℝ) (stored : List ℝ) (frames : List Frame)
    (expected entropy : String) (s : ℝ)
    (hs : computeSimilarity stored (getAverageEmbedding embedFn frames) = .ok s) :
    authenticate flowFn embedFn stored frames expected entropy =
      .ok (authOkResponse flowFn frames expected entropy s) := by
  unfold authenticate
  rw [hs]

lemma authenticate_error_eq (flowFn : Frame → Frame → MotionField)
    (embedFn : Frame → List ℝ) (stored : List ℝ) (frames : List Frame)
    (expected entropy : String) (f : Fault)
    (hf : computeSimilarity stored (getAverageEmbedding embedFn frames) = .error f) :
    authenticate flowFn embedFn stored frames expected entropy = .error f := by
  unfold authenticate
  rw [hf]

lemma if_some_isSome (b : Bool) (x : String) :
    (if b then some x else none).isSome = b := by
  cases b <;> rfl

/-- C1: whenever a verification call returns a result, its `authenticated`
flag is the conjunction of the three per stage `passed` flags, and the
result carries a session identifier exactly when it is authenticated. -/
theorem C1_fusion_and_session_presence (flowFn : Frame → Frame → MotionField)
    (embedFn : Frame → List ℝ) (stored : List ℝ) (frames : List Frame)
    (expected entropy : String) (res : AuthResponse)
    (h : authenticate flowFn embedFn stored frames expected entropy = .ok res) :
    res.authenticated = (res.details.liveness.passed &&
      res.details.direction.passed && res.details.similarity.passed) ∧
    res.session_id.isSome = res.authenticated := by
  cases hsim : computeSimilarity stored (getAverageEmbedding embedFn frames) with
  | error f =>
    rw [authenticate_error_eq flowFn embedFn stored frames expected entropy f hsim] at h
    exact (Except.noConfusion h)
  | ok s =>
    rw [authenticate_ok_eq flowFn embedFn stored frames expected entropy s hsim] at h
    have hres := Except.ok.inj h
    subst hres
    exact ⟨rfl, if_some_isSome _ _⟩

/-- Witness for C1 at a concrete accepting input. -/
theorem C1_witness :
    authenticate accFlowFn accEmbedFn [1, 0] [0, 1] "right" "C" =
      .ok (authOkResponse accFlowFn [0, 1] "right" "C" (3 / 5)) ∧
    ((authOkResponse accFlowFn [0, 1] "right" "C" (3 / 5)).authenticated =
      ((authOkResponse accFlowFn [0, 1] "right" "C" (3 / 5)).details.liveness.passed &&
        (authOkResponse accFlowFn [0, 1] "right" "C" (3 / 5)).details.direction.passed &&
        (authOkResponse accFlowFn [0, 1] "right" "C" (3 / 5)).details.similarity.passed) ∧
    (authOkResponse accFlowFn [0, 1] "right" "C" (3 / 5)).session_id.isSome =
      (authOkResponse accFlowFn [0, 1] "right" "C" (3 / 5)).authenticated) :=
  ⟨authenticate_ok_eq accFlowFn accEmbedFn [1, 0] [0, 1] "right" "C" (3 / 5)
      acc_similarity,
    C1_fusion_and_session_presence accFlowFn accEmbedFn [1, 0] [0, 1] "right" "C" _
      (authenticate_ok_eq accFlowFn accEmbedFn [1, 0] [0, 1] "right" "C" (3 / 5)
        acc_similarity)⟩

/-- C4: when the stored and freshly computed embedding vectors have
different lengths, the verification call aborts with the distinguished
dimension mismatch fault — it does not return a (negative) verdict
result. -/
theorem C4_dimension_mismatch_fault (flowFn : Frame → Frame → MotionField)
    (embedFn : Frame → List ℝ) (stored : List ℝ) (frames : List Frame)
    (expected entropy : String)
    (h : stored.length ≠ (getAverageEmbedding embedFn frames).length) :
    authenticate flowFn embedFn stored frames expected entropy =
      .error (.dimensionMismatch stored.length
        (getAverageEmbedding embedFn frames).length) := by
  apply authenticate_error_eq
  unfold computeSimilarity
  rw [if_pos h]

/-- Witness for C4 with a stored vector of length 2 against a fresh
embedding of length 1. -/
theorem C4_witness :
    authenticate accFlowFn (fun _ => [1]) [1, 2] [0, 1] "right" "W" =
      .error (.dimensionMismatch ([(1 : ℝ), 2] : List ℝ).length
        (getAverageEmbedding (fun _ => [1]) [0, 1]).length) :=
  C4_dimension_mismatch_fault accFlowFn (fun _ => [1]) [1, 2] [0, 1] "right" "W"
    (by simp [getAverageEmbedding, meanVec])

/-- C7: when the similarity computation succeeds, the two vectors have equal
length, the value is the cosine of the sklearn normalized vectors, and the
similarity verdict passes iff that value is at least the threshold — the
boundary is inclusive: similarity exactly equal to the threshold passes. -/
theorem C7_similarity_inclusive_threshold (flowFn : Frame → Frame → MotionField)
    (embedFn : Frame → List ℝ) (stored : List ℝ) (frames : List Frame)
    (expected entropy : String) (s : ℝ) (res : AuthResponse)
    (hs : computeSimilarity stored (getAverageEmbedding embedFn frames) = .ok s)
    (h : authenticate flowFn embedFn stored frames expected entropy = .ok res) :
    stored.length = (getAverageEmbedding embedFn frames).length ∧
    s = dotList (sklNormalize stored) (sklNormalize (getAverageEmbedding embedFn frames)) ∧
    (res.details.similarity.passed = true ↔ s ≥ SIMILARITY_THRESHOLD) ∧
    (s = SIMILARITY_THRESHOLD → res.details.similarity.passed = true) := by
  have hlen : ¬stored.length ≠ (getAverageEmbedding embedFn frames).length := by
    intro hne
    unfold computeSimilarity at hs
    rw [if_pos hne] at hs
    exact (Except.noConfusion hs)
  have hdot : s = dotList (sklNormalize stored)
      (sklNormalize (getAverageEmbedding embedFn frames)) := by
    unfold computeSimilarity at hs
    rw [if_neg hlen] at hs
    exact (Except.ok.inj hs).symm
  rw [authenticate_ok_eq flowFn embedFn stored frames expected entropy s hs] at h
  have hres := Except.ok.inj h
  subst hres
  refine ⟨not_not.mp hlen, hdot, decide_eq_true_iff, fun he => ?_⟩
  show decide (s ≥ SIMILARITY_THRESHOLD) = true
  rw [he]
  exact decide_eq_true (le_refl _)

/-- Witness for C7 at the concrete accepting input whose similarity is
exactly the threshold value 0.60. -/
theorem C7_witness :
    ([(1 : ℝ), 0] : List ℝ).length =
      (getAverageEmbedding accEmbedFn [0, 1]).length ∧
    (3 / 5 : ℝ) = dotList (sklNormalize [1, 0])
      (sklNormalize (getAverageEmbedding accEmbedFn [0, 1])) ∧
    ((authOkResponse accFlowFn [0, 1] "right" "D"
        (3 / 5)).details.similarity.passed = true ↔
      (3 / 5 : ℝ) ≥ SIMILARITY_THRESHOLD) ∧
    ((3 / 5 : ℝ) = SIMILARITY_THRESHOLD →
      (authOkResponse accFlowFn [0, 1] "right" "D"
        (3 / 5)).details.similarity.passed = true) :=
  C7_similarity_inclusive_threshold accFlowFn accEmbedFn [1, 0] [0, 1] "right" "D"
    (3 / 5) _ acc_similarity
    (authenticate_ok_eq accFlowFn accEmbedFn [1, 0] [0, 1] "right" "D" (3 / 5)
      acc_similarity)

/-- C6 (amended): verification is deterministic in everything except the
session identifier — for any two entropy draws, the results agree after the
session id is erased, and a rejecting run is identical in every field
(the random suffix only ever enters the minted session id of an
authenticated result). -/
theorem C6_amended_deterministic_mod_session (flowFn : Frame → Frame → MotionField)
    (embedFn : Frame → List ℝ) (stored : List ℝ) (frames : List Frame)
    (expected e1 e2 : String) :
    Except.map (fun r => { r with session_id := none })
        (authenticate flowFn embedFn stored frames expected e1) =
      Except.map (fun r => { r with session_id := none })
        (authenticate flowFn embedFn stored frames expected e2) ∧
    (Except.map AuthResponse.authenticated
        (authenticate flowFn embedFn stored frames expected e1) = .ok false →
      authenticate flowFn embedFn stored frames expected e1 =
        authenticate flowFn embedFn stored frames expected e2) := by
  cases hsim : computeSimilarity stored (getAverageEmbedding embedFn frames) with
  | error f =>
    rw [authenticate_error_eq flowFn embedFn stored frames expected e1 f hsim,
      authenticate_error_eq flowFn embedFn stored frames expected e2 f hsim]
    exact ⟨rfl, fun _ => rfl⟩
  | ok s =>
    rw [authenticate_ok_eq flowFn embedFn stored frames expected e1 s hsim,
      authenticate_ok_eq flowFn embedFn stored frames expected e2 s hsim]
    constructor
    · rfl
    · intro h
      simp only [Except.map] at h
      have hb := Except.ok.inj h
      have hb2 : ((checkLiveness flowFn frames LIVENESS_THRESHOLD).is_live &&
          (checkChallengeDirection flowFn frames expected 0.3).direction_match &&
          decide (s ≥ SIMILARITY_THRESHOLD)) = false := hb
      congr 1
      unfold authOkResponse
      simp only [hb2]
      simp

lemma authOk_session (flowFn : Frame → Frame → MotionField) (frames : List Frame)
    (expected entropy : String) (s : ℝ) :
    (authOkResponse flowFn frames expected entropy s).session_id =
      if (authOkResponse flowFn frames expected entropy s).authenticated then
        some ("SP-" ++ entropy)
      else none := rfl

lemma acc_flag (entropy : String) :
    (authOkResponse accFlowFn [0, 1] "right" entropy (3 / 5)).authenticated = true := by
  have hb : (authOkResponse accFlowFn [0, 1] "right" entropy (3 / 5)).authenticated =
      ((checkLiveness accFlowFn [0, 1] LIVENESS_THRESHOLD).is_live &&
        (checkChallengeDirection accFlowFn [0, 1] "right" 0.3).direction_match &&
        decide ((3 / 5 : ℝ) ≥ SIMILARITY_THRESHOLD)) := rfl
  rw [hb]
  have hl : LIVENESS_THRESHOLD = 1.5 := rfl
  rw [hl, acc_liveness, acc_direction]
  simp only [Bool.true_and]
  rw [decide_eq_true_iff]
  unfold SIMILARITY_THRESHOLD
  norm_num

lemma acc_session (entropy : String) :
    (authOkResponse accFlowFn [0, 1] "right" entropy (3 / 5)).session_id =
      some ("SP-" ++ entropy) := by
  rw [authOk_session, acc_flag entropy]
  rfl

/-- C6 counterexample: on a concrete input that authenticates, two runs
differing only in the random session entropy return different results —
the session id embeds the fresh random suffix, so identical inputs do not
always yield an identical result on the authenticated branch. -/
theorem C6_counterexample :
    Except.map AuthResponse.authenticated
      (authenticate accFlowFn accEmbedFn [1, 0] [0, 1] "right" "A") = .ok true ∧
    authenticate accFlowFn accEmbedFn [1, 0] [0, 1] "right" "A" ≠
      authenticate accFlowFn accEmbedFn [1, 0] [0, 1] "right" "B" := by
  have hA := authenticate_ok_eq accFlowFn accEmbedFn [1, 0] [0, 1] "right" "A" (3 / 5)
    acc_similarity
  have hB := authenticate_ok_eq accFlowFn accEmbedFn [1, 0] [0, 1] "right" "B" (3 / 5)
    acc_similarity
  constructor
  · rw [hA]
    simp only [Except.map]
    rw [acc_flag]
  · rw [hA, hB]
    intro hc
    have h1 := Except.ok.inj hc
    have h2 := congrArg AuthResponse.session_id h1
    rw [acc_session, acc_session] at h2
    exact absurd (Option.some.inj h2) (by decide)

/-- Witness for the amended C6 at a concrete input and two entropy draws. -/
theorem C6_amended_witness :
    Except.map (fun r => { r with session_id := none })
        (authenticate accFlowFn accEmbedFn [1, 0] [0, 1] "right" "A") =
      Except.map (fun r => { r with session_id := none })
        (authenticate accFlowFn accEmbedFn [1, 0] [0, 1] "right" "B") ∧
    (Except.map AuthResponse.authenticated
        (authenticate accFlowFn accEmbedFn [1, 0] [0, 1] "right" "A") = .ok false →
      authenticate accFlowFn accEmbedFn [1, 0] [0, 1] "right" "A" =
        authenticate accFlowFn accEmbedFn [1, 0] [0, 1] "right" "B") :=
  C6_amended_deterministic_mod_session accFlowFn accEmbedFn [1, 0] [0, 1] "right"
    "A" "B"
